import Mathlib

/-
Verification of the notification subscription and dispatch path of
`pygatt/classes.py` (class `BLEDevice`), as a shallow embedding.

State: `_characteristics` (UUID string -> Characteristic), `_callbacks`
(a `defaultdict(set)` from value handle to the set of callbacks), and
`_subscribed_handlers` (value handle -> last written 2-byte configuration).
Finite maps are embedded as association lists, the callback set as a
duplicate-free list; callbacks themselves are opaque and are embedded as
identifiers, with dispatch returning the list of invocations performed.
Calls to the transport collaborator (`discover_characteristics`,
`char_write_handle`) are recorded in an explicit call trace.
-/

set_option autoImplicit false

namespace Pygatt

/-- A discovered characteristic; only the `handle` field of the Python
`Characteristic` object is used by `classes.py` (`characteristic.handle`). -/
structure Characteristic where
  handle : Nat
deriving DecidableEq, Repr

/-- Association-list lookup, embedding Python `dict.get` /
`dict.__getitem__`. -/
def alookup {α β : Type} [DecidableEq α] : List (α × β) → α → Option β
  | [], _ => none
  | (k, v) :: rest, a => if k = a then some v else alookup rest a

/-- Association-list update, embedding Python `dict.__setitem__`:
replaces the binding of the key when present, otherwise appends it. -/
def ainsert {α β : Type} [DecidableEq α] : List (α × β) → α → β → List (α × β)
  | [], a, b => [(a, b)]
  | (k, v) :: rest, a, b =>
      if k = a then (a, b) :: rest else (k, v) :: ainsert rest a b

/-- Set insertion on a duplicate-free list, embedding Python `set.add`:
a no-op when the element is already present. -/
def setInsert (s : List Nat) (x : Nat) : List Nat :=
  if x ∈ s then s else s ++ [x]

/-- The state of a `BLEDevice`: the fields set up in `__init__`
(`_address`, `_characteristics`, `_callbacks`, `_subscribed_handlers`);
the lock serializes the operations and needs no state of its own. -/
structure BLEDevice where
  address : String
  characteristics : List (String × Characteristic)
  callbacks : List (Nat × List Nat)
  subscribed_handlers : List (Nat × List Nat)
deriving DecidableEq, Repr

/-- `BLEDevice.__init__(address)`: empty tables. -/
def BLEDevice.init (address : String) : BLEDevice :=
  { address := address
    characteristics := []
    callbacks := []
    subscribed_handlers := [] }

/-- Errors surfaced by the embedded operations. The code raises
`exceptions.BLEError("No characteristic found matching %s" % uuid)` on a
lookup miss (the spec's `NotFoundError`, naming the UUID), and the
transport collaborator may fail a write (the spec's `TransportError`). -/
inductive BLEError where
  | notFound (uuid : String)
  | transportError
deriving DecidableEq, Repr

/-- A call made to the transport collaborator. -/
inductive TransportCall where
  | discover
  | write (handle : Nat) (value : List Nat) (wait_for_response : Bool)
deriving DecidableEq, Repr

/-- Modelled from the spec: the Transport collaborator. The backend
methods `discover_characteristics` and `char_write_handle` raise
`NotImplementedError` in `classes.py` and are provided by a backend, so
they are modelled from the spec's collaborator contract: `discover` is
the full table returned by a rediscovery, and `writeOk` tells whether a
given `write_attribute(handle, value, wait_for_response)` succeeds or
fails with `TransportError`. -/
structure Transport where
  discover : List (String × Characteristic)
  writeOk : Nat → List Nat → Bool → Bool

/-- Modelled from the spec: `char_write_handle(handle, value,
wait_for_response)` as implemented by a backend — one raw attribute
write, which either succeeds or raises the spec's `TransportError`.
Returns the transport calls made and the optional error. -/
def char_write_handle (t : Transport) (handle : Nat) (value : List Nat)
    (wait_for_response : Bool) : List TransportCall × Option BLEError :=
  ([TransportCall.write handle value wait_for_response],
   if t.writeOk handle value wait_for_response then none
   else some BLEError.transportError)

/-- `BLEDevice.get_handle(uuid)`: if the UUID is not in
`self._characteristics`, the table is replaced wholesale by
`self.discover_characteristics()`; then the UUID is looked up and
`characteristic.handle` returned, or `BLEError` raised when still
absent. Returns the new state, the transport calls made, and the
result. -/
def get_handle (t : Transport) (s : BLEDevice) (uuid : String) :
    BLEDevice × List TransportCall × Except BLEError Nat :=
  let (s1, calls) :=
    if (alookup s.characteristics uuid).isNone then
      ({ s with characteristics := t.discover }, [TransportCall.discover])
    else (s, [])
  match alookup s1.characteristics uuid with
  | none => (s1, calls, Except.error (BLEError.notFound uuid))
  | some c => (s1, calls, Except.ok c.handle)

/-- The 2-byte configuration value built in `subscribe`:
`bytearray([0x2 if indication else 0x1, 0x0])`. -/
def subProperties (indication : Bool) : List Nat :=
  [if indication then 0x2 else 0x1, 0x0]

/-- Add a callback to `self._callbacks[value_handle]`
(`defaultdict(set)`: a missing entry starts as the empty set). -/
def addCallback (m : List (Nat × List Nat)) (value_handle cb : Nat) :
    List (Nat × List Nat) :=
  ainsert m value_handle (setInsert ((alookup m value_handle).getD []) cb)

/-- `BLEDevice.subscribe(uuid, callback, indication)`: resolve the value
handle via `get_handle` (propagating its error), compute
`characteristic_config_handle = value_handle + 1` and the 2-byte
`properties`; under the lock, add the callback (when not `None`) to
`self._callbacks[value_handle]`, then, when
`self._subscribed_handlers.get(value_handle, None) != properties`, write
`properties` to the config handle with `wait_for_response=False` and —
only if the write did not raise — record
`self._subscribed_handlers[value_handle] = properties`. Returns the new
state, the transport calls made, and the optional error. -/
def subscribe (t : Transport) (s : BLEDevice) (uuid : String)
    (callback : Option Nat) (indication : Bool) :
    BLEDevice × List TransportCall × Option BLEError :=
  match get_handle t s uuid with
  | (s1, calls, Except.error e) => (s1, calls, some e)
  | (s1, calls, Except.ok value_handle) =>
    let characteristic_config_handle := value_handle + 1
    let properties := subProperties indication
    let s2 :=
      match callback with
      | none => s1
      | some cb => { s1 with callbacks := addCallback s1.callbacks value_handle cb }
    if alookup s2.subscribed_handlers value_handle ≠ some properties then
      match char_write_handle t characteristic_config_handle properties false with
      | (wcalls, none) =>
        ({ s2 with subscribed_handlers :=
             ainsert s2.subscribed_handlers value_handle properties },
         calls ++ wcalls, none)
      | (wcalls, some e) => (s2, calls ++ wcalls, some e)
    else
      (s2, calls, none)

/-- `BLEDevice.char_write(uuid, value, wait_for_response)`:
`return self.char_write_handle(self.get_handle(uuid), value,
wait_for_response=wait_for_response)`. -/
def char_write (t : Transport) (s : BLEDevice) (uuid : String)
    (value : List Nat) (wait_for_response : Bool) :
    BLEDevice × List TransportCall × Option BLEError :=
  match get_handle t s uuid with
  | (s1, calls, Except.error e) => (s1, calls, some e)
  | (s1, calls, Except.ok h) =>
    match char_write_handle t h value wait_for_response with
    | (wcalls, r) => (s1, calls ++ wcalls, r)

/-- An invocation of a callback: the callback identifier and the
`(handle, value)` arguments it was called with. -/
abbrev Invocation := Nat × Nat × List Nat

/-- `BLEDevice.receive_notification(handle, value)`: under the lock, if
`handle in self._callbacks`, call every callback in
`self._callbacks[handle]` with `(handle, value)`. Returns the (unchanged)
state and the list of callback invocations performed. -/
def receive_notification (s : BLEDevice) (handle : Nat) (value : List Nat) :
    BLEDevice × List Invocation :=
  match alookup s.callbacks handle with
  | none => (s, [])
  | some cbs => (s, cbs.map fun cb => (cb, handle, value))

/-- The callbacks registered for a handle (empty when no entry exists). -/
def callbacksFor (s : BLEDevice) (handle : Nat) : List Nat :=
  (alookup s.callbacks handle).getD []

/-- Whether a transport call is an attribute write. -/
def TransportCall.isWrite : TransportCall → Bool
  | TransportCall.write _ _ _ => true
  | _ => false

/-- Whether a transport call is a rediscovery. -/
def TransportCall.isDiscover : TransportCall → Bool
  | TransportCall.discover => true
  | _ => false

/-- Number of attribute writes in a transport call trace. -/
def writeCount (calls : List TransportCall) : Nat :=
  (calls.filter TransportCall.isWrite).length

/-- Number of rediscoveries in a transport call trace. -/
def discoverCount (calls : List TransportCall) : Nat :=
  (calls.filter TransportCall.isDiscover).length

/-! ### Helper lemmas about the map and set operations -/

theorem alookup_ainsert_self {α β : Type} [DecidableEq α]
    (m : List (α × β)) (a : α) (b : β) :
    alookup (ainsert m a b) a = some b := by
  induction m with
  | nil => simp [ainsert, alookup]
  | cons kv rest ih =>
    obtain ⟨k, v⟩ := kv
    by_cases h : k = a
    · simp [ainsert, h, alookup]
    · simp [ainsert, h, alookup, ih]

theorem ainsert_eq_of_alookup {α β : Type} [DecidableEq α]
    {m : List (α × β)} {a : α} {b : β} (h : alookup m a = some b) :
    ainsert m a b = m := by
  induction m with
  | nil => simp [alookup] at h
  | cons kv rest ih =>
    obtain ⟨k, v⟩ := kv
    by_cases hk : k = a
    · subst hk
      simp [alookup] at h
      simp [ainsert, h]
    · simp [alookup, hk] at h
      simp [ainsert, hk, ih h]

theorem mem_setInsert_self (l : List Nat) (x : Nat) : x ∈ setInsert l x := by
  by_cases h : x ∈ l
  · simp only [setInsert, if_pos h]
    exact h
  · simp [setInsert, h]

theorem mem_setInsert_of_mem {l : List Nat} {y : Nat} (x : Nat) (h : y ∈ l) :
    y ∈ setInsert l x := by
  by_cases hx : x ∈ l
  · simp [setInsert, hx]
    exact h
  · simp [setInsert, hx]
    exact Or.inl h

theorem setInsert_eq_of_mem {l : List Nat} {x : Nat} (h : x ∈ l) :
    setInsert l x = l := by
  simp [setInsert, h]

theorem nodup_setInsert {l : List Nat} (x : Nat) (h : l.Nodup) :
    (setInsert l x).Nodup := by
  by_cases hx : x ∈ l
  · simpa [setInsert, hx]
  · rw [setInsert, if_neg hx]
    refine h.append (List.nodup_singleton x) ?_
    intro a ha hmem
    rw [List.mem_singleton] at hmem
    exact hx (hmem ▸ ha)

/-- Number of occurrences of a value in a list; used to count how often
a given callback invocation appears in a dispatch trace. -/
def occCount {α : Type} [DecidableEq α] (l : List α) (a : α) : Nat :=
  (l.filter fun x => x = a).length

theorem occCount_eq_zero_of_not_mem {α : Type} [DecidableEq α]
    {l : List α} {a : α} (h : a ∉ l) : occCount l a = 0 := by
  induction l with
  | nil => rfl
  | cons b bs ih =>
    have hba : ¬(b = a) := fun hb => h (hb ▸ List.mem_cons_self b bs)
    have hnb : a ∉ bs := fun hm => h (List.mem_cons_of_mem b hm)
    simp [occCount, List.filter_cons, hba]
    intro x hx hxa
    exact hnb (hxa ▸ hx)

theorem occCount_eq_one_of_mem {α : Type} [DecidableEq α] {l : List α}
    {a : α} (hnd : l.Nodup) (ha : a ∈ l) : occCount l a = 1 := by
  induction l with
  | nil => cases ha
  | cons b bs ih =>
    rcases List.mem_cons.mp ha with hb | hb
    · subst hb
      have hnotin : a ∉ bs := (List.nodup_cons.mp hnd).1
      simp [occCount, List.filter_cons]
      intro x hx hxa
      exact hnotin (hxa ▸ hx)
    · have hba : ¬(b = a) := by
        intro h
        subst h
        exact (List.nodup_cons.mp hnd).1 hb
      simp [occCount, List.filter_cons, hba]
      exact ih (List.nodup_cons.mp hnd).2 hb

theorem occCount_map {α β : Type} [DecidableEq α] [DecidableEq β]
    (f : α → β) (hf : Function.Injective f) (l : List α) (x : α) :
    occCount (l.map f) (f x) = occCount l x := by
  induction l with
  | nil => rfl
  | cons b bs ih =>
    by_cases hb : b = x
    · subst hb
      simp [occCount, List.filter_cons] at ih ⊢
      exact ih
    · have hfb : ¬(f b = f x) := fun h => hb (hf h)
      simp [occCount, List.filter_cons, hb, hfb] at ih ⊢
      exact ih

theorem occCount_setInsert_self {l : List Nat} (x : Nat) (h : l.Nodup) :
    occCount (setInsert l x) x = 1 :=
  occCount_eq_one_of_mem (nodup_setInsert x h) (mem_setInsert_self l x)

/-! ### Characterization lemmas for the operations -/

/-- The callback-map update performed in `subscribe`: a no-op when
`callback` is `None`, otherwise `addCallback`. -/
def cbUpdate (m : List (Nat × List Nat)) (value_handle : Nat) :
    Option Nat → List (Nat × List Nat)
  | none => m
  | some cb => addCallback m value_handle cb

theorem get_handle_resolved (t : Transport) {s : BLEDevice} {uuid : String}
    {c : Characteristic} (hres : alookup s.characteristics uuid = some c) :
    get_handle t s uuid = (s, [], Except.ok c.handle) := by
  simp [get_handle, hres]

theorem subProperties_ne_not (ind : Bool) :
    subProperties ind ≠ subProperties (!ind) := by
  cases ind <;> simp [subProperties]

theorem subscribe_skip (t : Transport) {s : BLEDevice} {uuid : String}
    (cb : Option Nat) (ind : Bool) {c : Characteristic}
    (hres : alookup s.characteristics uuid = some c)
    (heq : alookup s.subscribed_handlers c.handle = some (subProperties ind)) :
    subscribe t s uuid cb ind =
      ({ s with callbacks := cbUpdate s.callbacks c.handle cb }, [], none) := by
  cases cb <;>
    simp [subscribe, get_handle_resolved t hres, cbUpdate, heq]

theorem subscribe_write_ok (t : Transport) {s : BLEDevice} {uuid : String}
    (cb : Option Nat) (ind : Bool) {c : Characteristic}
    (hres : alookup s.characteristics uuid = some c)
    (hdiff : alookup s.subscribed_handlers c.handle ≠ some (subProperties ind))
    (hw : t.writeOk (c.handle + 1) (subProperties ind) false = true) :
    subscribe t s uuid cb ind =
      ({ s with
          callbacks := cbUpdate s.callbacks c.handle cb,
          subscribed_handlers :=
            ainsert s.subscribed_handlers c.handle (subProperties ind) },
       [TransportCall.write (c.handle + 1) (subProperties ind) false], none) := by
  cases cb <;>
    simp [subscribe, get_handle_resolved t hres, cbUpdate, char_write_handle,
      hw, hdiff]

theorem subscribe_write_fail (t : Transport) {s : BLEDevice} {uuid : String}
    (cb : Option Nat) (ind : Bool) {c : Characteristic}
    (hres : alookup s.characteristics uuid = some c)
    (hdiff : alookup s.subscribed_handlers c.handle ≠ some (subProperties ind))
    (hw : t.writeOk (c.handle + 1) (subProperties ind) false = false) :
    subscribe t s uuid cb ind =
      ({ s with callbacks := cbUpdate s.callbacks c.handle cb },
       [TransportCall.write (c.handle + 1) (subProperties ind) false],
       some BLEError.transportError) := by
  cases cb <;>
    simp [subscribe, get_handle_resolved t hres, cbUpdate, char_write_handle,
      hw, hdiff]

theorem alookup_addCallback_self (m : List (Nat × List Nat)) (h cb : Nat) :
    alookup (addCallback m h cb) h = some (setInsert ((alookup m h).getD []) cb) :=
  alookup_ainsert_self m h (setInsert ((alookup m h).getD []) cb)

theorem callbacksFor_addCallback (s : BLEDevice) (m : List (Nat × List Nat))
    (h cb : Nat) (hm : s.callbacks = addCallback m h cb) :
    callbacksFor s h = setInsert ((alookup m h).getD []) cb := by
  simp [callbacksFor, hm, alookup_addCallback_self]

theorem receive_notification_of_empty {s : BLEDevice} {h : Nat}
    (v : List Nat) (hempty : callbacksFor s h = []) :
    receive_notification s h v = (s, []) := by
  cases hlook : alookup s.callbacks h with
  | none => simp [receive_notification, hlook]
  | some cbs =>
    have hnil : cbs = [] := by simpa [callbacksFor, hlook] using hempty
    simp [receive_notification, hlook, hnil]

/-! ### Concrete fixtures used by the witnesses -/

def exChar : Characteristic := ⟨0x10⟩

def exDevice : BLEDevice :=
  { address := "01:23:45:67:89:ab"
    characteristics := [("a1e8", exChar)]
    callbacks := []
    subscribed_handlers := [] }

def exDeviceEmpty : BLEDevice := BLEDevice.init "01:23:45:67:89:ab"

def exTransport : Transport :=
  { discover := [("a1e8", exChar)]
    writeOk := fun _ _ _ => true }

def exTransportFail : Transport :=
  { discover := [("a1e8", exChar)]
    writeOk := fun _ _ _ => false }

/-! ### The claims -/

/-- C2: when `subscribe` decides a write is needed (the recorded config
for the value handle differs from the requested one) for a uuid
resolving to value handle `c.handle`, the transport receives exactly one
call: a write of the two bytes `[0x02 if use_indication else 0x01,
0x00]` to the configuration-attribute handle `c.handle + 1` with
`wait_for_response = false`. -/
theorem C2_subscribe_writes_config_bytes (t : Transport) (s : BLEDevice)
    (uuid : String) (cb : Option Nat) (ind : Bool) (c : Characteristic)
    (hres : alookup s.characteristics uuid = some c)
    (hdiff : alookup s.subscribed_handlers c.handle ≠ some (subProperties ind)) :
    (subscribe t s uuid cb ind).2.1 =
      [TransportCall.write (c.handle + 1)
        [if ind then 0x2 else 0x1, 0x0] false] := by
  cases hw : t.writeOk (c.handle + 1) (subProperties ind) false
  · rw [subscribe_write_fail t cb ind hres hdiff hw]
    rfl
  · rw [subscribe_write_ok t cb ind hres hdiff hw]
    rfl

/-- Witness for C2: uuid resolving to value handle 0x10, indication
false, a fresh device: the bytes 0x01 0x00 are written to handle 0x11. -/
theorem C2_subscribe_writes_config_bytes_witness :
    (alookup exDevice.characteristics "a1e8" = some exChar ∧
     alookup exDevice.subscribed_handlers exChar.handle ≠
       some (subProperties false)) ∧
    (subscribe exTransport exDevice "a1e8" (some 7) false).2.1 =
      [TransportCall.write (0x10 + 1) [0x1, 0x0] false] :=
  ⟨⟨by decide, by decide⟩,
   C2_subscribe_writes_config_bytes exTransport exDevice "a1e8" (some 7)
     false exChar (by decide) (by decide)⟩

/-- C3: for a uuid absent from the handle table, `get_handle` makes
exactly one rediscovery call to the transport, replaces the table
wholesale with the discovery result before succeeding or failing, and
then returns the handle when the uuid is now present, or fails with the
not-found error naming the uuid. -/
theorem C3_get_handle_miss_rediscovers (t : Transport) (s : BLEDevice)
    (uuid : String)
    (hmiss : alookup s.characteristics uuid = none) :
    discoverCount (get_handle t s uuid).2.1 = 1 ∧
    (get_handle t s uuid).1 = { s with characteristics := t.discover } ∧
    (alookup t.discover uuid = none →
      (get_handle t s uuid).2.2 = Except.error (BLEError.notFound uuid)) ∧
    (∀ c : Characteristic, alookup t.discover uuid = some c →
      (get_handle t s uuid).2.2 = Except.ok c.handle) := by
  cases hd : alookup t.discover uuid with
  | none =>
    simp [get_handle, hmiss, hd, discoverCount, TransportCall.isDiscover]
  | some c =>
    simp [get_handle, hmiss, hd, discoverCount, TransportCall.isDiscover]

/-- Witness for C3: a device with an empty handle table; the uuid is
found after the rediscovery. -/
theorem C3_get_handle_miss_rediscovers_witness :
    alookup exDeviceEmpty.characteristics "a1e8" = none ∧
    (discoverCount (get_handle exTransport exDeviceEmpty "a1e8").2.1 = 1 ∧
     (get_handle exTransport exDeviceEmpty "a1e8").1 =
       { exDeviceEmpty with characteristics := exTransport.discover } ∧
     (alookup exTransport.discover "a1e8" = none →
       (get_handle exTransport exDeviceEmpty "a1e8").2.2 =
         Except.error (BLEError.notFound "a1e8")) ∧
     (∀ c : Characteristic, alookup exTransport.discover "a1e8" = some c →
       (get_handle exTransport exDeviceEmpty "a1e8").2.2 =
         Except.ok c.handle)) :=
  ⟨by decide,
   C3_get_handle_miss_rediscovers exTransport exDeviceEmpty "a1e8"
     (by decide)⟩

/-- C6: dispatching a notification to a handle with no registered
callbacks performs no callback invocation, raises no error, and leaves
the registry state unchanged — the event is silently dropped. -/
theorem C6_receive_notification_no_callbacks (s : BLEDevice)
    (handle : Nat) (value : List Nat)
    (hempty : callbacksFor s handle = []) :
    receive_notification s handle value = (s, []) :=
  receive_notification_of_empty value hempty

/-- Witness for C6: a fresh device with no callbacks registered. -/
theorem C6_receive_notification_no_callbacks_witness :
    callbacksFor exDevice 0x10 = [] ∧
    receive_notification exDevice 0x10 [0xAA, 0xBB] = (exDevice, []) :=
  ⟨by decide,
   C6_receive_notification_no_callbacks exDevice 0x10 [0xAA, 0xBB]
     (by decide)⟩

/-- C8: `char_write` is a pure pass-through: it resolves the uuid via
`get_handle` and forwards to `char_write_handle`; a lookup error is
propagated as-is and no write is attempted, otherwise the write trace
and result of `char_write_handle` at the resolved handle are returned
unchanged, with the same value and wait flag. -/
theorem C8_char_write_pass_through (t : Transport) (s : BLEDevice)
    (uuid : String) (value : List Nat) (w : Bool) (s1 : BLEDevice)
    (calls : List TransportCall) (r : Except BLEError Nat)
    (hgh : get_handle t s uuid = (s1, calls, r)) :
    char_write t s uuid value w =
      match r with
      | Except.error e => (s1, calls, some e)
      | Except.ok hdl =>
          (s1, calls ++ (char_write_handle t hdl value w).1,
           (char_write_handle t hdl value w).2) := by
  cases r with
  | error e => simp [char_write, hgh]
  | ok hdl => simp [char_write, hgh, char_write_handle]

/-- Witness for C8: writing by uuid on the concrete device forwards the
write to the resolved handle 0x10. -/
theorem C8_char_write_pass_through_witness :
    get_handle exTransport exDevice "a1e8" =
      (exDevice, [], Except.ok 0x10) ∧
    char_write exTransport exDevice "a1e8" [0xAB] true =
      (exDevice, [TransportCall.write 0x10 [0xAB] true], none) :=
  ⟨by rfl,
   C8_char_write_pass_through exTransport exDevice "a1e8" [0xAB] true
     exDevice [] (Except.ok 0x10) (by rfl)⟩

/-- C10: with `callback=None`, `subscribe` leaves the callback map
entirely untouched while still writing the configuration exactly when
the recorded config differs from the requested one; a later dispatch on
that handle (still without callbacks) invokes nothing and is dropped. -/
theorem C10_subscribe_none_callback (t : Transport) (s : BLEDevice)
    (uuid : String) (ind : Bool) (c : Characteristic) (v : List Nat)
    (hres : alookup s.characteristics uuid = some c) :
    (subscribe t s uuid none ind).1.callbacks = s.callbacks ∧
    writeCount (subscribe t s uuid none ind).2.1 =
      (if alookup s.subscribed_handlers c.handle = some (subProperties ind)
       then 0 else 1) ∧
    (callbacksFor s c.handle = [] →
      receive_notification (subscribe t s uuid none ind).1 c.handle v =
        ((subscribe t s uuid none ind).1, [])) := by
  have hmain : (subscribe t s uuid none ind).1.callbacks = s.callbacks ∧
      writeCount (subscribe t s uuid none ind).2.1 =
        (if alookup s.subscribed_handlers c.handle = some (subProperties ind)
         then 0 else 1) := by
    by_cases heq :
        alookup s.subscribed_handlers c.handle = some (subProperties ind)
    · rw [subscribe_skip t none ind hres heq]
      simp [cbUpdate, writeCount, heq]
    · cases hw : t.writeOk (c.handle + 1) (subProperties ind) false
      · rw [subscribe_write_fail t none ind hres heq hw]
        simp [cbUpdate, writeCount, TransportCall.isWrite, heq]
      · rw [subscribe_write_ok t none ind hres heq hw]
        simp [cbUpdate, writeCount, TransportCall.isWrite, heq]
  refine ⟨hmain.1, hmain.2, fun hempty => ?_⟩
  apply receive_notification_of_empty
  simpa [callbacksFor, hmain.1] using hempty

/-- Witness for C10: subscribing without a callback on the fresh device
writes the config once, registers nothing, and a later notification on
handle 0x10 is dropped. -/
theorem C10_subscribe_none_callback_witness :
    alookup exDevice.characteristics "a1e8" = some exChar ∧
    ((subscribe exTransport exDevice "a1e8" none true).1.callbacks =
       exDevice.callbacks ∧
     writeCount (subscribe exTransport exDevice "a1e8" none true).2.1 =
       (if alookup exDevice.subscribed_handlers exChar.handle =
           some (subProperties true) then 0 else 1) ∧
     (callbacksFor exDevice exChar.handle = [] →
       receive_notification (subscribe exTransport exDevice "a1e8" none true).1
           exChar.handle [0xAA] =
         ((subscribe exTransport exDevice "a1e8" none true).1, []))) :=
  ⟨by decide,
   C10_subscribe_none_callback exTransport exDevice "a1e8" true exChar [0xAA]
     (by decide)⟩

/-- C1: from a state where the requested config is not yet the recorded
one for the value handle, subscribing issues exactly one configuration
write to the transport; subscribing again with the same
`(uuid, use_indication)` issues no further write (the recorded config
now equals the requested one); subscribing once more with the opposite
`use_indication` issues a second write whose first byte is the updated
flag. -/
theorem C1_subscribe_twice_one_write (t : Transport) (s : BLEDevice)
    (uuid : String) (cb : Option Nat) (ind : Bool) (c : Characteristic)
    (hres : alookup s.characteristics uuid = some c)
    (hdiff : alookup s.subscribed_handlers c.handle ≠ some (subProperties ind))
    (hw1 : t.writeOk (c.handle + 1) (subProperties ind) false = true)
    (hw2 : t.writeOk (c.handle + 1) (subProperties (!ind)) false = true) :
    writeCount (subscribe t s uuid cb ind).2.1 = 1 ∧
    writeCount (subscribe t (subscribe t s uuid cb ind).1 uuid cb ind).2.1 = 0 ∧
    (subscribe t (subscribe t (subscribe t s uuid cb ind).1 uuid cb ind).1
        uuid cb (!ind)).2.1 =
      [TransportCall.write (c.handle + 1)
        [if !ind then 0x2 else 0x1, 0x0] false] := by
  have h1 := subscribe_write_ok t cb ind hres hdiff hw1
  have hres1 : alookup (subscribe t s uuid cb ind).1.characteristics uuid
      = some c := by
    rw [h1]; exact hres
  have heq1 : alookup (subscribe t s uuid cb ind).1.subscribed_handlers
      c.handle = some (subProperties ind) := by
    rw [h1]; exact alookup_ainsert_self _ _ _
  have h2 := subscribe_skip t cb ind hres1 heq1
  have hres2 : alookup (subscribe t (subscribe t s uuid cb ind).1 uuid cb
      ind).1.characteristics uuid = some c := by
    rw [h2]; exact hres1
  have heq2 : alookup (subscribe t (subscribe t s uuid cb ind).1 uuid cb
      ind).1.subscribed_handlers c.handle = some (subProperties ind) := by
    rw [h2]; exact heq1
  have hdiff2 : alookup (subscribe t (subscribe t s uuid cb ind).1 uuid cb
      ind).1.subscribed_handlers c.handle ≠ some (subProperties (!ind)) := by
    rw [heq2]
    intro hcontra
    exact subProperties_ne_not ind (Option.some.inj hcontra)
  have h3 := subscribe_write_ok t cb (!ind) hres2 hdiff2 hw2
  refine ⟨?_, ?_, ?_⟩
  · rw [h1]
    rfl
  · rw [h2]
    rfl
  · rw [h3]
    rfl

/-- Witness for C1: the fresh device, indication false then true; one
write with flag byte 0x01 on the first call, none on the repeat call,
one write with flag byte 0x02 on the flipped call. -/
theorem C1_subscribe_twice_one_write_witness :
    (alookup exDevice.characteristics "a1e8" = some exChar ∧
     alookup exDevice.subscribed_handlers exChar.handle ≠
       some (subProperties false) ∧
     exTransport.writeOk (exChar.handle + 1) (subProperties false) false
       = true ∧
     exTransport.writeOk (exChar.handle + 1) (subProperties (!false)) false
       = true) ∧
    (writeCount (subscribe exTransport exDevice "a1e8" (some 7)
        false).2.1 = 1 ∧
     writeCount (subscribe exTransport
        (subscribe exTransport exDevice "a1e8" (some 7) false).1 "a1e8"
        (some 7) false).2.1 = 0 ∧
     (subscribe exTransport
        (subscribe exTransport
          (subscribe exTransport exDevice "a1e8" (some 7) false).1 "a1e8"
          (some 7) false).1 "a1e8" (some 7) (!false)).2.1 =
       [TransportCall.write (exChar.handle + 1)
         [if !false then 0x2 else 0x1, 0x0] false]) :=
  ⟨⟨by decide, by decide, by decide, by decide⟩,
   C1_subscribe_twice_one_write exTransport exDevice "a1e8" (some 7) false
     exChar (by decide) (by decide) (by decide) (by decide)⟩

/-- C5: when the configuration write inside `subscribe` fails, the
transport error is propagated to the caller and the recorded config for
the value handle is left unchanged, so a retried subscribe with the same
arguments attempts the write again rather than skipping it. -/
theorem C5_subscribe_write_failure (t : Transport) (s : BLEDevice)
    (uuid : String) (cb : Option Nat) (ind : Bool) (c : Characteristic)
    (hres : alookup s.characteristics uuid = some c)
    (hdiff : alookup s.subscribed_handlers c.handle ≠ some (subProperties ind))
    (hw : t.writeOk (c.handle + 1) (subProperties ind) false = false) :
    (subscribe t s uuid cb ind).2.2 = some BLEError.transportError ∧
    (subscribe t s uuid cb ind).1.subscribed_handlers =
      s.subscribed_handlers ∧
    writeCount (subscribe t (subscribe t s uuid cb ind).1 uuid cb ind).2.1
      = 1 := by
  have h1 := subscribe_write_fail t cb ind hres hdiff hw
  have hres1 : alookup (subscribe t s uuid cb ind).1.characteristics uuid
      = some c := by
    rw [h1]; exact hres
  have hdiff1 : alookup (subscribe t s uuid cb ind).1.subscribed_handlers
      c.handle ≠ some (subProperties ind) := by
    rw [h1]; exact hdiff
  have h2 := subscribe_write_fail t cb ind hres1 hdiff1 hw
  refine ⟨?_, ?_, ?_⟩
  · rw [h1]
  · rw [h1]
  · rw [h2]
    rfl

/-- Witness for C5: the fresh device with the failing transport; the
error is surfaced, nothing is recorded, and the retry writes again. -/
theorem C5_subscribe_write_failure_witness :
    (alookup exDevice.characteristics "a1e8" = some exChar ∧
     alookup exDevice.subscribed_handlers exChar.handle ≠
       some (subProperties false) ∧
     exTransportFail.writeOk (exChar.handle + 1) (subProperties false) false
       = false) ∧
    ((subscribe exTransportFail exDevice "a1e8" (some 7) false).2.2 =
       some BLEError.transportError ∧
     (subscribe exTransportFail exDevice "a1e8" (some 7)
        false).1.subscribed_handlers = exDevice.subscribed_handlers ∧
     writeCount (subscribe exTransportFail
        (subscribe exTransportFail exDevice "a1e8" (some 7) false).1 "a1e8"
        (some 7) false).2.1 = 1) :=
  ⟨⟨by decide, by decide, by decide⟩,
   C5_subscribe_write_failure exTransportFail exDevice "a1e8" (some 7) false
     exChar (by decide) (by decide) (by decide)⟩

/-- C9: in `subscribe` the callback is added to the callback map before
the configuration write is attempted, so when the write fails the
callback nevertheless remains registered for the value handle, the
transport error is propagated, and no other registry field changes. -/
theorem C9_callback_added_before_write (t : Transport) (s : BLEDevice)
    (uuid : String) (cbk : Nat) (ind : Bool) (c : Characteristic)
    (hres : alookup s.characteristics uuid = some c)
    (hdiff : alookup s.subscribed_handlers c.handle ≠ some (subProperties ind))
    (hw : t.writeOk (c.handle + 1) (subProperties ind) false = false) :
    subscribe t s uuid (some cbk) ind =
      ({ s with callbacks := addCallback s.callbacks c.handle cbk },
       [TransportCall.write (c.handle + 1) (subProperties ind) false],
       some BLEError.transportError) ∧
    cbk ∈ callbacksFor (subscribe t s uuid (some cbk) ind).1 c.handle := by
  have h1 := subscribe_write_fail t (some cbk) ind hres hdiff hw
  have hmem : cbk ∈ callbacksFor
      { s with callbacks := addCallback s.callbacks c.handle cbk }
      c.handle := by
    rw [callbacksFor_addCallback _ s.callbacks c.handle cbk rfl]
    exact mem_setInsert_self _ _
  constructor
  · rw [h1]
    rfl
  · rw [h1]
    exact hmem

/-- Witness for C9: the fresh device with the failing transport; the
callback 7 is registered at handle 0x10 although the write failed. -/
theorem C9_callback_added_before_write_witness :
    (alookup exDevice.characteristics "a1e8" = some exChar ∧
     alookup exDevice.subscribed_handlers exChar.handle ≠
       some (subProperties false) ∧
     exTransportFail.writeOk (exChar.handle + 1) (subProperties false) false
       = false) ∧
    (subscribe exTransportFail exDevice "a1e8" (some 7) false =
       ({ exDevice with
           callbacks := addCallback exDevice.callbacks exChar.handle 7 },
        [TransportCall.write (exChar.handle + 1) (subProperties false) false],
        some BLEError.transportError) ∧
     7 ∈ callbacksFor (subscribe exTransportFail exDevice "a1e8" (some 7)
          false).1 exChar.handle) :=
  ⟨⟨by decide, by decide, by decide⟩,
   C9_callback_added_before_write exTransportFail exDevice "a1e8" 7 false
     exChar (by decide) (by decide) (by decide)⟩

/-- C4: after a subscribe with a callback succeeds, dispatching a
notification on the resolved value handle invokes that callback with
`(handle, value)` exactly once; more generally, every callback present
in the callback set for the handle at dispatch start is invoked exactly
once with `(handle, value)`. -/
theorem C4_dispatch_invokes_once (t : Transport) (s : BLEDevice)
    (uuid : String) (cbk : Nat) (c : Characteristic) (v : List Nat)
    (hres : alookup s.characteristics uuid = some c)
    (hw : t.writeOk (c.handle + 1) (subProperties false) false = true)
    (hnd : (callbacksFor s c.handle).Nodup) :
    (subscribe t s uuid (some cbk) false).2.2 = none ∧
    occCount ((receive_notification (subscribe t s uuid (some cbk) false).1
        c.handle v).2) (cbk, c.handle, v) = 1 ∧
    (∀ k, k ∈ callbacksFor (subscribe t s uuid (some cbk) false).1 c.handle →
      occCount ((receive_notification (subscribe t s uuid (some cbk) false).1
          c.handle v).2) (k, c.handle, v) = 1) := by
  have hmain : (subscribe t s uuid (some cbk) false).1.callbacks =
      addCallback s.callbacks c.handle cbk ∧
      (subscribe t s uuid (some cbk) false).2.2 = none := by
    by_cases heq :
        alookup s.subscribed_handlers c.handle = some (subProperties false)
    · rw [subscribe_skip t (some cbk) false hres heq]
      exact ⟨rfl, rfl⟩
    · rw [subscribe_write_ok t (some cbk) false hres heq hw]
      exact ⟨rfl, rfl⟩
  have hcbs : alookup (subscribe t s uuid (some cbk) false).1.callbacks
      c.handle =
      some (setInsert ((alookup s.callbacks c.handle).getD []) cbk) := by
    rw [hmain.1]
    exact alookup_addCallback_self _ _ _
  have hdisp : (receive_notification (subscribe t s uuid (some cbk) false).1
      c.handle v).2 =
      (setInsert ((alookup s.callbacks c.handle).getD []) cbk).map
        (fun k => (k, c.handle, v)) := by
    simp [receive_notification, hcbs]
  have hnd2 : (setInsert ((alookup s.callbacks c.handle).getD []) cbk).Nodup :=
    nodup_setInsert _ hnd
  have hinj : Function.Injective (fun k : Nat => (k, c.handle, v)) := by
    intro a b hab
    simpa using congrArg Prod.fst hab
  refine ⟨hmain.2, ?_, ?_⟩
  · rw [hdisp]
    exact (occCount_map _ hinj _ cbk).trans (occCount_setInsert_self _ hnd)
  · intro k hk
    have hk2 : k ∈ setInsert ((alookup s.callbacks c.handle).getD []) cbk := by
      simp only [callbacksFor, hcbs, Option.getD_some] at hk
      exact hk
    rw [hdisp]
    exact (occCount_map _ hinj _ k).trans (occCount_eq_one_of_mem hnd2 hk2)

/-- Witness for C4: on the fresh device, after subscribing callback 7,
a notification on handle 0x10 with value 0xAA 0xBB invokes callback 7
exactly once. -/
theorem C4_dispatch_invokes_once_witness :
    (alookup exDevice.characteristics "a1e8" = some exChar ∧
     exTransport.writeOk (exChar.handle + 1) (subProperties false) false
       = true ∧
     (callbacksFor exDevice exChar.handle).Nodup) ∧
    ((subscribe exTransport exDevice "a1e8" (some 7) false).2.2 = none ∧
     occCount ((receive_notification (subscribe exTransport exDevice "a1e8"
          (some 7) false).1 exChar.handle [0xAA, 0xBB]).2)
        (7, exChar.handle, [0xAA, 0xBB]) = 1 ∧
     (∀ k, k ∈ callbacksFor (subscribe exTransport exDevice "a1e8" (some 7)
          false).1 exChar.handle →
       occCount ((receive_notification (subscribe exTransport exDevice "a1e8"
            (some 7) false).1 exChar.handle [0xAA, 0xBB]).2)
          (k, exChar.handle, [0xAA, 0xBB]) = 1)) :=
  ⟨⟨by decide, by decide, by decide⟩,
   C4_dispatch_invokes_once exTransport exDevice "a1e8" 7 exChar
     [0xAA, 0xBB] (by decide) (by decide) (by decide)⟩

/-- C7: adding a callback is idempotent on the callback set — a second
subscribe with the same `(uuid, callback, use_indication)` leaves the
callback map exactly as it was after the first call — and when two
distinct callbacks are registered for the same uuid, both are invoked
by a subsequent dispatch on that uuid's value handle. -/
theorem C7_callback_idempotent_both_invoked (t : Transport) (s : BLEDevice)
    (uuid : String) (cb1 cb2 : Nat) (ind : Bool) (c : Characteristic)
    (v : List Nat)
    (hres : alookup s.characteristics uuid = some c)
    (hw : t.writeOk (c.handle + 1) (subProperties ind) false = true)
    (_hne : cb1 ≠ cb2) :
    (subscribe t (subscribe t s uuid (some cb1) ind).1 uuid (some cb1)
        ind).1.callbacks = (subscribe t s uuid (some cb1) ind).1.callbacks ∧
    (cb1, c.handle, v) ∈
      (receive_notification
        (subscribe t (subscribe t s uuid (some cb1) ind).1 uuid (some cb2)
          ind).1 c.handle v).2 ∧
    (cb2, c.handle, v) ∈
      (receive_notification
        (subscribe t (subscribe t s uuid (some cb1) ind).1 uuid (some cb2)
          ind).1 c.handle v).2 := by
  have hfirst : (subscribe t s uuid (some cb1) ind).1.callbacks =
      addCallback s.callbacks c.handle cb1 ∧
      alookup (subscribe t s uuid (some cb1) ind).1.characteristics uuid
        = some c ∧
      alookup (subscribe t s uuid (some cb1) ind).1.subscribed_handlers
        c.handle = some (subProperties ind) := by
    by_cases heq :
        alookup s.subscribed_handlers c.handle = some (subProperties ind)
    · rw [subscribe_skip t (some cb1) ind hres heq]
      exact ⟨rfl, hres, heq⟩
    · rw [subscribe_write_ok t (some cb1) ind hres heq hw]
      exact ⟨rfl, hres, alookup_ainsert_self _ _ _⟩
  have hlook1 : alookup (subscribe t s uuid (some cb1) ind).1.callbacks
      c.handle =
      some (setInsert ((alookup s.callbacks c.handle).getD []) cb1) := by
    rw [hfirst.1]
    exact alookup_addCallback_self _ _ _
  have h2a := subscribe_skip t (some cb1) ind hfirst.2.1 hfirst.2.2
  have h2b := subscribe_skip t (some cb2) ind hfirst.2.1 hfirst.2.2
  have hlook2 : alookup (subscribe t (subscribe t s uuid (some cb1) ind).1
      uuid (some cb2) ind).1.callbacks c.handle =
      some (setInsert
        (setInsert ((alookup s.callbacks c.handle).getD []) cb1) cb2) := by
    rw [h2b]
    show alookup (addCallback (subscribe t s uuid (some cb1) ind).1.callbacks
      c.handle cb2) c.handle = _
    rw [alookup_addCallback_self, hlook1]
    rfl
  have hdisp : (receive_notification (subscribe t
      (subscribe t s uuid (some cb1) ind).1 uuid (some cb2) ind).1
      c.handle v).2 =
      (setInsert (setInsert ((alookup s.callbacks c.handle).getD []) cb1)
        cb2).map (fun k => (k, c.handle, v)) := by
    simp [receive_notification, hlook2]
  refine ⟨?_, ?_, ?_⟩
  · rw [h2a]
    show addCallback (subscribe t s uuid (some cb1) ind).1.callbacks
        c.handle cb1 = (subscribe t s uuid (some cb1) ind).1.callbacks
    rw [addCallback, hlook1]
    show ainsert (subscribe t s uuid (some cb1) ind).1.callbacks c.handle
        (setInsert (setInsert ((alookup s.callbacks c.handle).getD []) cb1)
          cb1) = _
    rw [setInsert_eq_of_mem (mem_setInsert_self _ _)]
    exact ainsert_eq_of_alookup hlook1
  · rw [hdisp]
    exact List.mem_map_of_mem _
      (mem_setInsert_of_mem cb2 (mem_setInsert_self _ _))
  · rw [hdisp]
    exact List.mem_map_of_mem _ (mem_setInsert_self _ _)

/-- Witness for C7: callbacks 7 and 8 on the fresh device; the repeat
subscribe of 7 changes nothing and a notification on handle 0x10
reaches both 7 and 8. -/
theorem C7_callback_idempotent_both_invoked_witness :
    (alookup exDevice.characteristics "a1e8" = some exChar ∧
     exTransport.writeOk (exChar.handle + 1) (subProperties false) false
       = true ∧
     (7 : Nat) ≠ 8) ∧
    ((subscribe exTransport
        (subscribe exTransport exDevice "a1e8" (some 7) false).1 "a1e8"
        (some 7) false).1.callbacks =
       (subscribe exTransport exDevice "a1e8" (some 7) false).1.callbacks ∧
     (7, exChar.handle, [0xAA]) ∈
       (receive_notification
         (subscribe exTransport
           (subscribe exTransport exDevice "a1e8" (some 7) false).1 "a1e8"
           (some 8) false).1 exChar.handle [0xAA]).2 ∧
     (8, exChar.handle, [0xAA]) ∈
       (receive_notification
         (subscribe exTransport
           (subscribe exTransport exDevice "a1e8" (some 7) false).1 "a1e8"
           (some 8) false).1 exChar.handle [0xAA]).2) :=
  ⟨⟨by decide, by decide, by decide⟩,
   C7_callback_idempotent_both_invoked exTransport exDevice "a1e8" 7 8
     false exChar [0xAA] (by decide) (by decide) (by decide)⟩

end Pygatt
